import Mathlib

/-!
Shallow embedding of the litestripe webhook reconciliation core
(src/litestripe/handlers.py, src/litestripe/models.py, src/litestripe/views.py).

Modelling conventions:
- datetimes are represented by their integer Unix timestamps: the source's
  convert_to_datetime maps a nonzero integer to a timezone-aware datetime and
  this map is injective, so every equality comparison between converted values
  agrees with equality of the underlying integers;
- JSON dictionaries read with dict.get are represented by structures of Option
  fields (None = key absent), and JSON metadata values by strings;
- the persistent store is a list of rows; raised exceptions are Except errors.
-/

namespace Litestripe

/-- Mirrors convert_to_datetime (handlers.py 13-18): a falsy timestamp (None
or 0) yields None; otherwise the timestamp becomes a UTC datetime, modelled
here by the integer itself. -/
def convert_to_datetime : Option Int → Option Int
  | some t => if t = 0 then none else some t
  | none => none

/-- Association-list model of the JSON metadata dict stored in
StripeSubscription.metadata (models.py 42, 47-59). -/
abbrev Metadata := List (String × String)

/-- Mirrors dict assignment inside set_metadata (models.py 51-55): replace the
value at an existing key in place, otherwise append the new pair at the end. -/
def set_metadata (m : Metadata) (k v : String) : Metadata :=
  if m.any (fun p => p.1 == k) then
    m.map (fun p => if p.1 == k then (k, v) else p)
  else m ++ [(k, v)]

/-- Mirrors get_metadata_key (models.py 57-59). -/
def get_metadata_key (m : Metadata) (k : String) : Option String :=
  (m.find? (fun p => p.1 == k)).map (fun p => p.2)

/-- Mirrors the StripeSubscription model (models.py 27-45).  CharFields are
non-nullable and default to the empty string on a fresh row; the nullable
DateTimeFields and the nullable BooleanField are Options.  The automatic audit
columns dt_created and dt_last_updated are not modelled. -/
structure StripeSubscription where
  stripe_customer_id : String := ""
  client_reference_id : String := ""
  stripe_subscription_id : String
  created : Option Int := none
  start_date : Option Int := none
  cancel_at : Option Int := none
  cancelled_at : Option Int := none
  cancel_at_period_end : Option Bool := none
  status : String := ""
  metadata : Metadata := []
deriving DecidableEq, Repr

/-- Mirrors the OrphanedPayment model (models.py 4-22); the raw event payload
is kept opaque and the audit columns are not modelled. -/
structure OrphanedPayment where
  stripe_customer_id : Option String
  customer_email : Option String
  event : String
  reason : Option String
deriving DecidableEq, Repr

/-- Modelled from the spec: the persistent store is an external collaborator
(spec section 6).  Creating a StripeSubscription row under an absent (None)
stripe_subscription_id key violates the non-nullable column declared at
models.py line 35; the spec's error taxonomy (section 7) names this failure
MissingIdentifier. -/
inductive StoreError
  | missingIdentifier
deriving DecidableEq, Repr

/-- Mirrors StripeSubscription.objects.get_or_create(stripe_subscription_id=k)
(handlers.py 37-39 and 150-152): look the row up by id, supplying a fresh
default row when absent, together with the created flag.  A None key cannot be
persisted into the non-nullable id column, so the call fails with no row
written.  The immediate insert of a fresh row is subsumed by the save at the
end of each handler, which is always reached on the success path. -/
def get_or_create (key : Option String) (tbl : List StripeSubscription) :
    Except StoreError (StripeSubscription × Bool) :=
  match key with
  | none => .error .missingIdentifier
  | some k =>
    match tbl.find? (fun s => s.stripe_subscription_id == k) with
    | some s => .ok (s, false)
    | none => .ok ({ stripe_subscription_id := k }, true)

/-- Mirrors subscription.save() (handlers.py 87 and 165): upsert the row keyed
by its stripe_subscription_id. -/
def save (s : StripeSubscription) (tbl : List StripeSubscription) :
    List StripeSubscription :=
  if tbl.any (fun x => x.stripe_subscription_id == s.stripe_subscription_id) then
    tbl.map (fun x => if x.stripe_subscription_id == s.stripe_subscription_id then s else x)
  else tbl ++ [s]

/-- The subscription payload fields read by update_or_create_subscription
(handlers.py 25-34): each Option field models dict.get of the corresponding
key (note the payload key for the cancelled_at column is spelled canceled_at);
metadata models dict.get of the metadata key with default empty dict. -/
structure Payload where
  id : Option String := none
  customer : Option String := none
  status : Option String := none
  metadata : Metadata := []
  created : Option Int := none
  start_date : Option Int := none
  cancel_at : Option Int := none
  canceled_at : Option Int := none
  cancel_at_period_end : Option Bool := none
deriving DecidableEq, Repr

/-- The previous_attributes mapping: only its cancel_at key is ever read
(handlers.py 45). -/
structure PrevAttributes where
  cancel_at : Option Int := none
deriving DecidableEq, Repr

/-- Mirrors check_subscription_renewal (handlers.py 42-53): the previous
cancel_at must be truthy (present and nonzero), convert to a datetime, and
equal the record's currently stored cancel_at. -/
def check_subscription_renewal (s : StripeSubscription)
    (previous_attributes : Option PrevAttributes) : Bool :=
  match previous_attributes with
  | some pa =>
    match pa.cancel_at with
    | some pc =>
      if pc = 0 then false
      else
        match convert_to_datetime (some pc) with
        | some dt => s.cancel_at == some dt
        | none => false
    | none => false
  | none => false

/-- Truthiness of previous_attributes.get("cancel_at") as tested at
handlers.py 44-46: present and nonzero. -/
def prev_cancel_truthy : Option PrevAttributes → Bool
  | some pa =>
    match pa.cancel_at with
    | some pc => pc != 0
    | none => false
  | none => false

/-- Mirrors handlers.py 58-59 (truthiness test on the customer value). -/
def apply_customer (d : Payload) (s : StripeSubscription) : StripeSubscription :=
  match d.customer with
  | some c => if c = "" then s else { s with stripe_customer_id := c }
  | none => s

/-- Mirrors handlers.py 60-61 (is-not-None test on created). -/
def apply_created (d : Payload) (s : StripeSubscription) : StripeSubscription :=
  match d.created with
  | some t => { s with created := convert_to_datetime (some t) }
  | none => s

/-- Mirrors handlers.py 62-63 (is-not-None test on start_date). -/
def apply_start_date (d : Payload) (s : StripeSubscription) : StripeSubscription :=
  match d.start_date with
  | some t => { s with start_date := convert_to_datetime (some t) }
  | none => s

/-- Mirrors handlers.py 64-65: on a detected renewal cancel_at is forced to
None regardless of the payload value. -/
def apply_cancel_at (d : Payload) (is_renewed : Bool) (s : StripeSubscription) :
    StripeSubscription :=
  if d.cancel_at.isSome || is_renewed then
    { s with cancel_at := if is_renewed then none else convert_to_datetime d.cancel_at }
  else s

/-- Mirrors handlers.py 66-69: on a detected renewal cancelled_at is forced to
None regardless of the payload value. -/
def apply_cancelled_at (d : Payload) (is_renewed : Bool) (s : StripeSubscription) :
    StripeSubscription :=
  if d.canceled_at.isSome || is_renewed then
    { s with cancelled_at := if is_renewed then none else convert_to_datetime d.canceled_at }
  else s

/-- Mirrors handlers.py 70-71 (is-not-None test on cancel_at_period_end). -/
def apply_cancel_at_period_end (d : Payload) (s : StripeSubscription) :
    StripeSubscription :=
  match d.cancel_at_period_end with
  | some b => { s with cancel_at_period_end := some b }
  | none => s

/-- Mirrors handlers.py 72-73 (truthiness test on the status value). -/
def apply_status (d : Payload) (s : StripeSubscription) : StripeSubscription :=
  match d.status with
  | some st => if st = "" then s else { s with status := st }
  | none => s

/-- The namespaced metadata merge loop of handlers.py 76-77 (also the loop at
handlers.py 162-163): write every pair of the payload metadata dict under the
key obtained by prefixing the event type and a dot. -/
def meta_fold (event_type : String) (l : Metadata) (m : Metadata) : Metadata :=
  l.foldl (fun acc kv => set_metadata acc (event_type ++ "." ++ kv.1) kv.2) m

/-- Mirrors handlers.py 76-77: write every payload metadata pair under the
event-type-namespaced key. -/
def apply_metadata (event_type : String) (d : Payload) (s : StripeSubscription) :
    StripeSubscription :=
  { s with metadata := meta_fold event_type d.metadata s.metadata }

/-- Mirrors handlers.py 79-85: on a detected renewal, stamp the synthetic
metadata key with the current wall-clock time (threaded in as now). -/
def apply_renewal_stamp (is_renewed : Bool) (now : String) (s : StripeSubscription) :
    StripeSubscription :=
  if is_renewed then
    { s with metadata :=
        set_metadata s.metadata "litestripe.stripesubscription.last_renewed" now }
  else s

/-- The in-memory mutation sequence of update_or_create_subscription
(handlers.py 41-85), applied to the looked-up row in source order: renewal
detection against the stored cancel_at first, then the conditional field
overwrites, the namespaced metadata merge, and the renewal stamp. -/
def merged_record (event_type : String) (d : Payload)
    (previous_attributes : Option PrevAttributes) (now : String)
    (subscription : StripeSubscription) : StripeSubscription :=
  let is_renewed := check_subscription_renewal subscription previous_attributes
  let subscription := apply_customer d subscription
  let subscription := apply_created d subscription
  let subscription := apply_start_date d subscription
  let subscription := apply_cancel_at d is_renewed subscription
  let subscription := apply_cancelled_at d is_renewed subscription
  let subscription := apply_cancel_at_period_end d subscription
  let subscription := apply_status d subscription
  let subscription := apply_metadata event_type d subscription
  apply_renewal_stamp is_renewed now subscription

/-- Mirrors update_or_create_subscription (handlers.py 21-91), with the
current wall-clock time threaded in as now and the saved record returned
alongside the updated table. -/
def update_or_create_subscription (event_type : String) (subscription_data : Payload)
    (previous_attributes : Option PrevAttributes) (now : String)
    (tbl : List StripeSubscription) :
    Except StoreError (StripeSubscription × List StripeSubscription) := do
  let (subscription, _created) ← get_or_create subscription_data.id tbl
  let subscription :=
    merged_record event_type subscription_data previous_attributes now subscription
  pure (subscription, save subscription tbl)

/-- Python truthiness of an optional string: None and the empty string are
falsy, every other string is truthy. -/
def truthy : Option String → Bool
  | some s => s != ""
  | none => false

/-- The checkout.session.completed payload fields read by
handle_checkout_session_completed (handlers.py 139-143 and 159). -/
structure Session where
  subscription : Option String := none
  customer : Option String := none
  client_reference_id : Option String := none
  metadata : Metadata := []
  created : Option Int := none
deriving DecidableEq, Repr

/-- Database state: the StripeSubscription table and the OrphanedPayment
table. -/
structure DB where
  subs : List StripeSubscription := []
  orphans : List OrphanedPayment := []
deriving DecidableEq, Repr

/-- Mirrors orphaned_payment_handler (handlers.py 94-104): unconditionally
append a new OrphanedPayment row.  Note that no code path in the source ever
invokes this function. -/
def orphaned_payment_handler (event_obj : String)
    (stripe_customer_id customer_email reason : Option String) (db : DB) : DB :=
  { db with orphans := db.orphans ++
      [{ stripe_customer_id := stripe_customer_id,
         customer_email := customer_email,
         event := event_obj,
         reason := reason }] }

/-- Mirrors handlers.py 155-156 (truthiness test on the session customer). -/
def checkout_apply_customer (session : Session) (s : StripeSubscription) :
    StripeSubscription :=
  match session.customer with
  | some c => if c = "" then s else { s with stripe_customer_id := c }
  | none => s

/-- Mirrors handlers.py 157-158 (truthiness test on client_reference_id). -/
def checkout_apply_client_reference (session : Session) (s : StripeSubscription) :
    StripeSubscription :=
  match session.client_reference_id with
  | some c => if c = "" then s else { s with client_reference_id := c }
  | none => s

/-- Mirrors handlers.py 159-160 (truthiness test on session.get("created"), so
a zero timestamp is skipped here, unlike handlers.py 60). -/
def checkout_apply_created (session : Session) (s : StripeSubscription) :
    StripeSubscription :=
  match session.created with
  | some t => if t = 0 then s else { s with created := convert_to_datetime (some t) }
  | none => s

/-- Mirrors handlers.py 161-163: the namespaced metadata merge behind a
truthiness test on the metadata dict (the guard is semantically redundant
since folding an empty dict is the identity, but it mirrors the source).
The written key f"checkout.session.completed.{key}" coincides with
"checkout.session.completed" ++ "." ++ key. -/
def checkout_apply_metadata (session : Session) (s : StripeSubscription) :
    StripeSubscription :=
  if session.metadata.isEmpty then s
  else { s with metadata := meta_fold "checkout.session.completed" session.metadata s.metadata }

/-- The in-memory mutation sequence of handle_checkout_session_completed
(handlers.py 154-163), applied to the looked-up row in source order. -/
def checkout_merged (session : Session) (subscription : StripeSubscription) :
    StripeSubscription :=
  let subscription := checkout_apply_customer session subscription
  let subscription := checkout_apply_client_reference session subscription
  let subscription := checkout_apply_created session subscription
  checkout_apply_metadata session subscription

/-- Mirrors handle_checkout_session_completed (handlers.py 137-169).  When the
session carries no truthy subscription id the source only logs a warning and
returns: the database is untouched and in particular no OrphanedPayment row is
created (orphaned_payment_handler is never invoked anywhere in the source).
Otherwise the restricted pass updates only the correlation and creation fields
and the namespaced metadata, then saves. -/
def handle_checkout_session_completed (session : Session) (db : DB) :
    Except StoreError DB :=
  if truthy session.subscription = false then .ok db
  else do
    let (subscription, _created) ← get_or_create session.subscription db.subs
    let subscription := checkout_merged session subscription
    pure { db with subs := save subscription db.subs }

/-- A decoded, signature-verified webhook event as seen by the dispatcher
(views.py 35-36): only its type is consulted for handler lookup. -/
structure WebhookEvent where
  id : String
  type : String
deriving DecidableEq, Repr

/-- A registered handler: invoking it either completes or raises, modelled by
Except. -/
abbrev Handler := WebhookEvent → Except String Unit

/-- The handler registry stripe_webhook_handlers (handlers.py 10): an
event-type keyed dict mapping to the ordered list of registered handlers. -/
abbrev Registry := List (String × List Handler)

/-- Mirrors registration through the stripe_webhook_handler decorator
(handlers.py 108-123): append the handler to the list for the event type,
creating the list when the type is not yet registered. -/
def register (reg : Registry) (event_type : String) (h : Handler) : Registry :=
  if reg.any (fun p => p.1 == event_type) then
    reg.map (fun p => if p.1 == event_type then (p.1, p.2 ++ [h]) else p)
  else reg ++ [(event_type, [h])]

/-- Mirrors stripe_webhook_handlers.get(event_type, []) (views.py 40). -/
def lookup_handlers (reg : Registry) (event_type : String) : List Handler :=
  match reg.find? (fun p => p.1 == event_type) with
  | some p => p.2
  | none => []

/-- The outcome of invoking one handler inside the dispatch loop
(views.py 42-47): success, or the captured message of a raised exception. -/
inductive HandlerOutcome
  | success
  | failure (msg : String)
deriving DecidableEq, Repr

/-- Mirrors the try/except around handler(event) at views.py 43-47: a raised
exception is captured and logged, never propagated. -/
def run_handler (h : Handler) (e : WebhookEvent) : HandlerOutcome :=
  match h e with
  | .ok _ => .success
  | .error msg => .failure msg

/-- The observable result of the webhook view after event verification
(views.py 40-52): the HTTP status (always 200 success), whether the
no-handlers branch was taken, and each handler's outcome in order. -/
structure DispatchReport where
  status : Nat
  no_handlers : Bool
  outcomes : List HandlerOutcome
deriving DecidableEq, Repr

/-- Mirrors the dispatch portion of stripe_webhook (views.py 40-52): look up
the handlers for the event type, run each in order capturing failures, and
return HTTP 200 success unconditionally. -/
def stripe_webhook (reg : Registry) (e : WebhookEvent) : DispatchReport :=
  let handlers := lookup_handlers reg e.type
  { status := 200,
    no_handlers := handlers.isEmpty,
    outcomes := handlers.map (fun h => run_handler h e) }

/-! Concrete inputs used by the claim verification theorems. -/

/-- Update payload whose own cancel_at equals the previous_attributes value:
the event that breaks redelivery idempotence. -/
def c3_payload : Payload := { id := some "sub_1", cancel_at := some 1700000000 }

def c3_prev : Option PrevAttributes := some { cancel_at := some 1700000000 }

/-- Result of applying c3_payload once to an empty table. -/
def c3_once_record : StripeSubscription :=
  { stripe_subscription_id := "sub_1", cancel_at := some 1700000000 }

/-- Result of applying c3_payload a second time to the table left by the first
application. -/
def c3_twice_record : StripeSubscription :=
  { stripe_subscription_id := "sub_1",
    metadata := [("litestripe.stripesubscription.last_renewed", "ts")] }

def c3w_payload : Payload :=
  { id := some "s", status := some "active", cancel_at := some 5,
    metadata := [("plan", "pro")] }

def c3w_record : StripeSubscription :=
  { stripe_subscription_id := "s", cancel_at := some 5, status := "active",
    metadata := [("customer.subscription.updated.plan", "pro")] }

def c4_tbl : List StripeSubscription :=
  [{ stripe_subscription_id := "sub_1", stripe_customer_id := "cus_old" }]

def c4_payload : Payload := { id := some "sub_1", customer := some "" }

def c4_result : StripeSubscription :=
  { stripe_subscription_id := "sub_1", stripe_customer_id := "cus_old" }

def c4w_payload : Payload :=
  { id := some "s", customer := some "cus_1", status := some "active",
    created := some 100, start_date := some 200, cancel_at := some 300,
    canceled_at := some 400, cancel_at_period_end := some true }

def c4w_record : StripeSubscription := { stripe_subscription_id := "s" }

def c6_tbl : List StripeSubscription :=
  [{ stripe_subscription_id := "sub_1", cancel_at := some 1700000000 }]

def c6_payload : Payload := { id := some "sub_1", cancel_at := some 0 }

def c6_result : StripeSubscription := { stripe_subscription_id := "sub_1" }

def c6w_payload : Payload :=
  { id := some "s", created := some 0, start_date := some 0,
    cancel_at := some 0, canceled_at := some 0 }

def c6w_record : StripeSubscription := { stripe_subscription_id := "s" }

def c2w_tbl : List StripeSubscription :=
  [{ stripe_subscription_id := "sub_1", cancel_at := some 1700000000 }]

def c2w_record : StripeSubscription :=
  { stripe_subscription_id := "sub_1", cancel_at := some 1700000000 }

/-- Payload carrying a stale cancel_at differing from the stored value. -/
def c2w_payload : Payload :=
  { id := some "sub_1", status := some "active", cancel_at := some 1800000000 }

def c7w_fail : Handler := fun _ => .error "boom"

def c7w_ok : Handler := fun _ => .ok ()

def c7w_event : WebhookEvent :=
  { id := "evt_1", type := "customer.subscription.updated" }

def c8_payload : Payload := { id := some "sub_1", metadata := [("plan", "pro")] }

def c8_session : Session :=
  { subscription := some "sub_1", metadata := [("plan", "basic")] }

def c8_r1 : StripeSubscription :=
  { stripe_subscription_id := "sub_1",
    metadata := [("customer.subscription.updated.plan", "pro")] }

def c8_r2 : StripeSubscription :=
  { stripe_subscription_id := "sub_1",
    metadata := [("customer.subscription.updated.plan", "pro"),
                 ("checkout.session.completed.plan", "basic")] }

def c8w_payload : Payload := { id := some "sub_1", metadata := [("x", "y")] }

def c8w_r2 : StripeSubscription :=
  { stripe_subscription_id := "sub_1",
    metadata := [("customer.subscription.updated.plan", "pro"),
                 ("customer.subscription.updated.x", "y")] }

def c9w_session : Session :=
  { subscription := some "sub_1", customer := some "cus_2",
    client_reference_id := some "ref_1", created := some 42,
    metadata := [("k", "v")] }

def c9w_record : StripeSubscription :=
  { stripe_subscription_id := "sub_1", status := "active", start_date := some 7,
    cancel_at := some 9, cancelled_at := some 11, cancel_at_period_end := some true,
    metadata := [("litestripe.stripesubscription.last_renewed", "old")] }

def c9w_db : DB := { subs := [c9w_record], orphans := [] }

def c10w_tbl : List StripeSubscription :=
  [{ stripe_subscription_id := "s", stripe_customer_id := "cus_0",
     status := "trialing" }]

def c10w_record : StripeSubscription :=
  { stripe_subscription_id := "s", stripe_customer_id := "cus_0",
    status := "trialing" }

def c10w_payload : Payload :=
  { id := some "s", customer := some "", status := some "" }

/-! Characterization lemmas: each merge step rewritten as a one-field record
update, so that projections of the composed merge compute by simp. -/

@[simp] theorem apply_customer_eq (d : Payload) (s : StripeSubscription) :
    apply_customer d s =
      { s with stripe_customer_id :=
          match d.customer with
          | some c => if c = "" then s.stripe_customer_id else c
          | none => s.stripe_customer_id } := by
  unfold apply_customer
  cases d.customer with
  | none => rfl
  | some c => by_cases h : c = "" <;> simp [h]

@[simp] theorem apply_created_eq (d : Payload) (s : StripeSubscription) :
    apply_created d s =
      { s with created :=
          match d.created with
          | some t => convert_to_datetime (some t)
          | none => s.created } := by
  unfold apply_created
  cases d.created <;> rfl

@[simp] theorem apply_start_date_eq (d : Payload) (s : StripeSubscription) :
    apply_start_date d s =
      { s with start_date :=
          match d.start_date with
          | some t => convert_to_datetime (some t)
          | none => s.start_date } := by
  unfold apply_start_date
  cases d.start_date <;> rfl

@[simp] theorem apply_cancel_at_eq (d : Payload) (b : Bool) (s : StripeSubscription) :
    apply_cancel_at d b s =
      { s with cancel_at :=
          if d.cancel_at.isSome || b then
            (if b then none else convert_to_datetime d.cancel_at)
          else s.cancel_at } := by
  unfold apply_cancel_at
  by_cases h : (d.cancel_at.isSome || b) = true <;> simp [h]

@[simp] theorem apply_cancelled_at_eq (d : Payload) (b : Bool) (s : StripeSubscription) :
    apply_cancelled_at d b s =
      { s with cancelled_at :=
          if d.canceled_at.isSome || b then
            (if b then none else convert_to_datetime d.canceled_at)
          else s.cancelled_at } := by
  unfold apply_cancelled_at
  by_cases h : (d.canceled_at.isSome || b) = true <;> simp [h]

@[simp] theorem apply_cancel_at_period_end_eq (d : Payload) (s : StripeSubscription) :
    apply_cancel_at_period_end d s =
      { s with cancel_at_period_end :=
          match d.cancel_at_period_end with
          | some b => some b
          | none => s.cancel_at_period_end } := by
  unfold apply_cancel_at_period_end
  cases d.cancel_at_period_end <;> rfl

@[simp] theorem apply_status_eq (d : Payload) (s : StripeSubscription) :
    apply_status d s =
      { s with status :=
          match d.status with
          | some st => if st = "" then s.status else st
          | none => s.status } := by
  unfold apply_status
  cases d.status with
  | none => rfl
  | some st => by_cases h : st = "" <;> simp [h]

@[simp] theorem apply_renewal_stamp_eq (b : Bool) (now : String) (s : StripeSubscription) :
    apply_renewal_stamp b now s =
      { s with metadata :=
          if b then
            set_metadata s.metadata "litestripe.stripesubscription.last_renewed" now
          else s.metadata } := by
  unfold apply_renewal_stamp
  cases b <;> simp

@[simp] theorem apply_metadata_eq (et : String) (d : Payload) (s : StripeSubscription) :
    apply_metadata et d s = { s with metadata := meta_fold et d.metadata s.metadata } := rfl

@[simp] theorem checkout_apply_customer_eq (session : Session) (s : StripeSubscription) :
    checkout_apply_customer session s =
      { s with stripe_customer_id :=
          match session.customer with
          | some c => if c = "" then s.stripe_customer_id else c
          | none => s.stripe_customer_id } := by
  unfold checkout_apply_customer
  cases session.customer with
  | none => rfl
  | some c => by_cases h : c = "" <;> simp [h]

@[simp] theorem checkout_apply_client_reference_eq (session : Session)
    (s : StripeSubscription) :
    checkout_apply_client_reference session s =
      { s with client_reference_id :=
          match session.client_reference_id with
          | some c => if c = "" then s.client_reference_id else c
          | none => s.client_reference_id } := by
  unfold checkout_apply_client_reference
  cases session.client_reference_id with
  | none => rfl
  | some c => by_cases h : c = "" <;> simp [h]

@[simp] theorem checkout_apply_created_eq (session : Session) (s : StripeSubscription) :
    checkout_apply_created session s =
      { s with created :=
          match session.created with
          | some t => if t = 0 then s.created else convert_to_datetime (some t)
          | none => s.created } := by
  unfold checkout_apply_created
  cases session.created with
  | none => rfl
  | some t => by_cases h : t = 0 <;> simp [h]

@[simp] theorem checkout_apply_metadata_eq (session : Session) (s : StripeSubscription) :
    checkout_apply_metadata session s =
      { s with metadata :=
          meta_fold "checkout.session.completed" session.metadata s.metadata } := by
  unfold checkout_apply_metadata
  by_cases h : session.metadata.isEmpty <;> simp [h]
  have : session.metadata = [] := List.isEmpty_iff.mp h
  simp [this, meta_fold]

/-! Lemmas about the metadata dictionary operations. -/

theorem get_metadata_key_set_same (m : Metadata) (k v : String) :
    get_metadata_key (set_metadata m k v) k = some v := by
  unfold set_metadata get_metadata_key
  split
  case isTrue h =>
    rw [List.find?_map]
    have hcomp : ((fun p : String × String => p.1 == k) ∘
        (fun p : String × String => if p.1 == k then (k, v) else p))
        = (fun p : String × String => p.1 == k) := by
      funext p
      by_cases hp : p.1 = k <;> simp [hp]
    rw [hcomp]
    obtain ⟨x, hx, px⟩ := List.any_eq_true.mp h
    cases hfind : m.find? (fun p => p.1 == k) with
    | none =>
      rw [List.find?_eq_none] at hfind
      exact absurd px (hfind x hx)
    | some q =>
      have hq0 := List.find?_some hfind
      have hqk : q.1 = k := by simpa using hq0
      simp [hqk]
  case isFalse h =>
    rw [List.find?_append]
    have hnone : m.find? (fun p => p.1 == k) = none := by
      rw [List.find?_eq_none]
      intro x hx hpx
      exact h (List.any_eq_true.mpr ⟨x, hx, hpx⟩)
    simp [hnone]

theorem get_metadata_key_set_ne (m : Metadata) (k v k2 : String) (h : k2 ≠ k) :
    get_metadata_key (set_metadata m k v) k2 = get_metadata_key m k2 := by
  unfold set_metadata get_metadata_key
  split
  case isTrue _ =>
    rw [List.find?_map]
    have hcomp : ((fun p : String × String => p.1 == k2) ∘
        (fun p : String × String => if p.1 == k then (k, v) else p))
        = (fun p : String × String => p.1 == k2) := by
      funext p
      by_cases hp : p.1 = k <;> simp [hp, Ne.symm h]
    rw [hcomp]
    cases hfind : m.find? (fun p => p.1 == k2) with
    | none => simp
    | some q =>
      have hq0 := List.find?_some hfind
      have hq : (q.1 == k2) = true := by simpa using hq0
      have hqk : ¬(q.1 = k) := by
        intro hk
        have hkk2 : k = k2 := by simpa [hk] using hq
        exact h hkk2.symm
      simp [hqk]
  case isFalse _ =>
    rw [List.find?_append]
    have htail : List.find? (fun p : String × String => p.1 == k2) [(k, v)] = none := by
      simp [Ne.symm h]
    rw [htail]
    cases m.find? (fun p => p.1 == k2) <;> simp

theorem get_metadata_key_set_isSome (m : Metadata) (k v k2 : String)
    (h : (get_metadata_key m k2).isSome) :
    (get_metadata_key (set_metadata m k v) k2).isSome := by
  by_cases hk : k2 = k
  · rw [hk, get_metadata_key_set_same]
    rfl
  · rw [get_metadata_key_set_ne m k v k2 hk]
    exact h

theorem get_meta_fold_isSome (et : String) (l : Metadata) (m : Metadata) (k : String)
    (h : (get_metadata_key m k).isSome) :
    (get_metadata_key (meta_fold et l m) k).isSome := by
  induction l generalizing m with
  | nil => exact h
  | cons a t ih =>
    exact ih (set_metadata m (et ++ "." ++ a.1) a.2)
      (get_metadata_key_set_isSome m (et ++ "." ++ a.1) a.2 k h)

theorem get_meta_fold_of_not_written (et : String) (l : Metadata) (m : Metadata)
    (k : String) (h : ∀ kv ∈ l, et ++ "." ++ kv.1 ≠ k) :
    get_metadata_key (meta_fold et l m) k = get_metadata_key m k := by
  induction l generalizing m with
  | nil => rfl
  | cons a t ih =>
    have step := get_metadata_key_set_ne m (et ++ "." ++ a.1) a.2 k
      (fun hk => h a (List.mem_cons_self a t) hk.symm)
    calc get_metadata_key (meta_fold et t (set_metadata m (et ++ "." ++ a.1) a.2)) k
        = get_metadata_key (set_metadata m (et ++ "." ++ a.1) a.2) k :=
          ih (set_metadata m (et ++ "." ++ a.1) a.2)
            (fun kv hkv => h kv (List.mem_cons_of_mem a hkv))
      _ = get_metadata_key m k := step

theorem set_metadata_keys (m : Metadata) (k v : String) :
    (set_metadata m k v).map Prod.fst =
      if m.any (fun p => p.1 == k) then m.map Prod.fst
      else m.map Prod.fst ++ [k] := by
  unfold set_metadata
  split
  case isTrue h =>
    rw [List.map_map]
    apply List.map_congr_left
    intro x _
    by_cases hxk : x.1 = k <;> simp [hxk]
  case isFalse h => simp

theorem set_metadata_keys_nodup (m : Metadata) (k v : String)
    (h : (m.map Prod.fst).Nodup) : ((set_metadata m k v).map Prod.fst).Nodup := by
  rw [set_metadata_keys]
  split
  case isTrue _ => exact h
  case isFalse hany =>
    have hk : k ∉ m.map Prod.fst := by
      intro hmem
      obtain ⟨p, hp, hpk⟩ := List.mem_map.mp hmem
      exact hany (List.any_eq_true.mpr ⟨p, hp, by simp [hpk]⟩)
    simp [List.nodup_append, h, hk]

theorem meta_fold_keys_nodup (et : String) (l m : Metadata)
    (h : (m.map Prod.fst).Nodup) : ((meta_fold et l m).map Prod.fst).Nodup := by
  induction l generalizing m with
  | nil => exact h
  | cons a t ih =>
    exact ih (set_metadata m (et ++ "." ++ a.1) a.2)
      (set_metadata_keys_nodup m (et ++ "." ++ a.1) a.2 h)

theorem set_metadata_self (k v : String) :
    ∀ m : Metadata, (m.map Prod.fst).Nodup → get_metadata_key m k = some v →
      set_metadata m k v = m := by
  intro m
  induction m with
  | nil => intro _ h; simp [get_metadata_key] at h
  | cons p t ih =>
    intro hnd h
    rw [List.map_cons, List.nodup_cons] at hnd
    by_cases hp : p.1 = k
    · have hfind : List.find? (fun q : String × String => q.1 == k) (p :: t)
          = some p := List.find?_cons_of_pos _ (by simp [hp])
      have hv : p.2 = v := by
        unfold get_metadata_key at h
        rw [hfind] at h
        simpa using h
      have hknot : ∀ x ∈ t, ¬(x.1 = k) := by
        intro x hx hxk
        apply hnd.1
        rw [hp]
        exact List.mem_map.mpr ⟨x, hx, hxk⟩
      have hany : ((p :: t).any (fun q => q.1 == k)) = true := by simp [hp]
      unfold set_metadata
      rw [if_pos hany]
      simp only [List.map_cons]
      have hhead : (if p.1 == k then (k, v) else p) = p := by
        have hpp : (p.1 == k) = true := by simp [hp]
        rw [if_pos hpp]
        exact Prod.ext hp.symm hv.symm
      rw [hhead]
      have htail : t.map (fun q => if q.1 == k then (k, v) else q) = t := by
        have h1 : t.map (fun q => if q.1 == k then (k, v) else q) = t.map id :=
          List.map_congr_left (fun x hx => by simp [hknot x hx])
        rw [h1, List.map_id]
      rw [htail]
    · have hpneg : ¬((fun q : String × String => q.1 == k) p = true) := by
        simp [hp]
      have hfind : List.find? (fun q : String × String => q.1 == k) (p :: t)
          = List.find? (fun q : String × String => q.1 == k) t := by
        rw [List.find?_cons_of_neg]
        simp [hp]
      have h2 : get_metadata_key t k = some v := by
        unfold get_metadata_key at h ⊢
        rw [hfind] at h
        exact h
      have iht := ih hnd.2 h2
      have hanyt : (t.any (fun q => q.1 == k)) = true := by
        unfold get_metadata_key at h2
        cases hfind2 : t.find? (fun q : String × String => q.1 == k) with
        | none => rw [hfind2] at h2; simp at h2
        | some q =>
          have hq0 := List.find?_some hfind2
          exact List.any_eq_true.mpr ⟨q, List.mem_of_find?_eq_some hfind2, hq0⟩
      have hany : ((p :: t).any (fun q => q.1 == k)) = true := by
        simp [List.any_cons, hanyt]
      unfold set_metadata
      rw [if_pos hany]
      simp only [List.map_cons]
      have htail : t.map (fun q => if q.1 == k then (k, v) else q) = t := by
        have := iht
        unfold set_metadata at this
        rw [if_pos hanyt] at this
        exact this
      rw [htail, if_neg hpneg]

theorem meta_fold_fixed (et : String) (l : Metadata) (M : Metadata)
    (hnd : (M.map Prod.fst).Nodup)
    (h : ∀ kv ∈ l, get_metadata_key M (et ++ "." ++ kv.1) = some kv.2) :
    meta_fold et l M = M := by
  induction l with
  | nil => rfl
  | cons a t ih =>
    show meta_fold et t (set_metadata M (et ++ "." ++ a.1) a.2) = M
    rw [set_metadata_self (et ++ "." ++ a.1) a.2 M hnd
      (h a (List.mem_cons_self a t))]
    exact ih (fun kv hkv => h kv (List.mem_cons_of_mem a hkv))

theorem get_meta_fold_written (et : String) :
    ∀ l : Metadata, (l.map (fun kv => et ++ "." ++ kv.1)).Nodup →
    ∀ m : Metadata, ∀ kv ∈ l,
      get_metadata_key (meta_fold et l m) (et ++ "." ++ kv.1) = some kv.2 := by
  intro l
  induction l with
  | nil => intro _ m kv h; cases h
  | cons a t ih =>
    intro hnd m kv hkv
    rw [List.map_cons, List.nodup_cons] at hnd
    rcases List.mem_cons.mp hkv with heq | hmem
    · subst heq
      show get_metadata_key
        (meta_fold et t (set_metadata m (et ++ "." ++ kv.1) kv.2))
        (et ++ "." ++ kv.1) = some kv.2
      rw [get_meta_fold_of_not_written]
      · exact get_metadata_key_set_same m (et ++ "." ++ kv.1) kv.2
      · intro x hx hxk
        exact hnd.1 (List.mem_map.mpr ⟨x, hx, hxk⟩)
    · exact ih hnd.2 (set_metadata m (et ++ "." ++ a.1) a.2) kv hmem

/-! Lemmas about the subscription table operations. -/

theorem find?_save_self (s : StripeSubscription) (tbl : List StripeSubscription) :
    (save s tbl).find?
      (fun x => x.stripe_subscription_id == s.stripe_subscription_id) = some s := by
  unfold save
  split
  case isTrue h =>
    rw [List.find?_map]
    have hcomp : ((fun x : StripeSubscription =>
          x.stripe_subscription_id == s.stripe_subscription_id) ∘
        (fun x => if x.stripe_subscription_id == s.stripe_subscription_id then s else x))
        = (fun x : StripeSubscription =>
          x.stripe_subscription_id == s.stripe_subscription_id) := by
      funext x
      by_cases hx : x.stripe_subscription_id = s.stripe_subscription_id <;> simp [hx]
    rw [hcomp]
    obtain ⟨x, hx, px⟩ := List.any_eq_true.mp h
    cases hfind : tbl.find?
        (fun x => x.stripe_subscription_id == s.stripe_subscription_id) with
    | none =>
      rw [List.find?_eq_none] at hfind
      exact absurd px (hfind x hx)
    | some q =>
      have hq0 := List.find?_some hfind
      have hq : q.stripe_subscription_id = s.stripe_subscription_id := by
        simpa using hq0
      simp [hq]
  case isFalse h =>
    rw [List.find?_append]
    have hnone : tbl.find?
        (fun x => x.stripe_subscription_id == s.stripe_subscription_id) = none := by
      rw [List.find?_eq_none]
      intro x hx hpx
      exact h (List.any_eq_true.mpr ⟨x, hx, hpx⟩)
    simp [hnone]

theorem get_or_create_save (s : StripeSubscription) (tbl : List StripeSubscription) :
    get_or_create (some s.stripe_subscription_id) (save s tbl) = .ok (s, false) := by
  have h := find?_save_self s tbl
  simp [get_or_create, h]

theorem save_save (s : StripeSubscription) (tbl : List StripeSubscription) :
    save s (save s tbl) = save s tbl := by
  by_cases h : (tbl.any
      (fun x => x.stripe_subscription_id == s.stripe_subscription_id)) = true
  · have hin : save s tbl = tbl.map
        (fun x => if x.stripe_subscription_id == s.stripe_subscription_id then s
          else x) := by
      unfold save
      rw [if_pos h]
    rw [hin]
    have hany2 : ((tbl.map (fun x =>
        if x.stripe_subscription_id == s.stripe_subscription_id then s else x)).any
        (fun x => x.stripe_subscription_id == s.stripe_subscription_id)) = true := by
      obtain ⟨x, hx, px⟩ := List.any_eq_true.mp h
      refine List.any_eq_true.mpr ⟨_, List.mem_map_of_mem _ hx, ?_⟩
      simp [px]
    unfold save
    rw [if_pos hany2, List.map_map]
    apply List.map_congr_left
    intro x _
    by_cases hx : x.stripe_subscription_id = s.stripe_subscription_id <;> simp [hx]
  · have hin : save s tbl = tbl ++ [s] := by
      unfold save
      rw [if_neg h]
    rw [hin]
    have hany2 : ((tbl ++ [s]).any
        (fun x => x.stripe_subscription_id == s.stripe_subscription_id)) = true := by
      refine List.any_eq_true.mpr ⟨s, by simp, by simp⟩
    unfold save
    rw [if_pos hany2, List.map_append]
    have hl : tbl.map (fun x =>
        if x.stripe_subscription_id == s.stripe_subscription_id then s else x)
        = tbl := by
      have h1 : tbl.map (fun x =>
          if x.stripe_subscription_id == s.stripe_subscription_id then s else x)
          = tbl.map id := by
        apply List.map_congr_left
        intro x hx
        have hpx : ¬(x.stripe_subscription_id == s.stripe_subscription_id)
            = true := fun hpx => h (List.any_eq_true.mpr ⟨x, hx, hpx⟩)
        simp at hpx
        simp [hpx]
      rw [h1, List.map_id]
    rw [hl]
    simp

/-! Core helper lemmas about the two handlers. -/

theorem update_or_create_eq (et : String) (d : Payload) (prev : Option PrevAttributes)
    (now : String) (tbl : List StripeSubscription) (r : StripeSubscription) (b : Bool)
    (h : get_or_create d.id tbl = .ok (r, b)) :
    update_or_create_subscription et d prev now tbl =
      .ok (merged_record et d prev now r, save (merged_record et d prev now r) tbl) := by
  unfold update_or_create_subscription
  rw [h]
  rfl

theorem handle_checkout_eq (session : Session) (db : DB) (r : StripeSubscription)
    (b : Bool) (hs : truthy session.subscription = true)
    (h : get_or_create session.subscription db.subs = .ok (r, b)) :
    handle_checkout_session_completed session db =
      .ok { db with subs := save (checkout_merged session r) db.subs } := by
  unfold handle_checkout_session_completed
  rw [hs]
  rw [if_neg (by simp : ¬(true = false))]
  rw [h]
  rfl

theorem get_or_create_some (k : String) (tbl : List StripeSubscription) :
    get_or_create (some k) tbl =
      (match tbl.find? (fun s => s.stripe_subscription_id == k) with
       | some s => .ok (s, false)
       | none => .ok ({ stripe_subscription_id := k }, true)) := rfl

theorem get_or_create_ok_id (sid : String) (tbl : List StripeSubscription)
    (r : StripeSubscription) (b : Bool)
    (h : get_or_create (some sid) tbl = .ok (r, b)) :
    r.stripe_subscription_id = sid := by
  rw [get_or_create_some] at h
  cases hf : tbl.find? (fun s => s.stripe_subscription_id == sid) with
  | some q =>
    rw [hf] at h
    simp only [Except.ok.injEq, Prod.mk.injEq] at h
    have hq0 := List.find?_some hf
    rw [← h.1]
    simpa using hq0
  | none =>
    rw [hf] at h
    simp only [Except.ok.injEq, Prod.mk.injEq] at h
    rw [← h.1]

theorem get_or_create_ok_meta_nodup (sid : String) (tbl : List StripeSubscription)
    (r : StripeSubscription) (b : Bool)
    (htbl : ∀ x ∈ tbl, (x.metadata.map Prod.fst).Nodup)
    (h : get_or_create (some sid) tbl = .ok (r, b)) :
    (r.metadata.map Prod.fst).Nodup := by
  rw [get_or_create_some] at h
  cases hf : tbl.find? (fun s => s.stripe_subscription_id == sid) with
  | some q =>
    rw [hf] at h
    simp only [Except.ok.injEq, Prod.mk.injEq] at h
    rw [← h.1]
    exact htbl q (List.mem_of_find?_eq_some hf)
  | none =>
    rw [hf] at h
    simp only [Except.ok.injEq, Prod.mk.injEq] at h
    rw [← h.1]
    simp

theorem check_eq_false_of_prev (prev : Option PrevAttributes)
    (h : prev_cancel_truthy prev = false) (s : StripeSubscription) :
    check_subscription_renewal s prev = false := by
  cases prev with
  | none => rfl
  | some pa =>
    cases hpc : pa.cancel_at with
    | none => simp [check_subscription_renewal, hpc]
    | some pc =>
      have h2 : (pc != 0) = false := by
        simpa [prev_cancel_truthy, hpc] using h
      have hpc0 : pc = 0 := by simpa using h2
      simp [check_subscription_renewal, hpc, hpc0]

theorem subscription_ext (a b : StripeSubscription)
    (h1 : a.stripe_customer_id = b.stripe_customer_id)
    (h2 : a.client_reference_id = b.client_reference_id)
    (h3 : a.stripe_subscription_id = b.stripe_subscription_id)
    (h4 : a.created = b.created)
    (h5 : a.start_date = b.start_date)
    (h6 : a.cancel_at = b.cancel_at)
    (h7 : a.cancelled_at = b.cancelled_at)
    (h8 : a.cancel_at_period_end = b.cancel_at_period_end)
    (h9 : a.status = b.status)
    (h10 : a.metadata = b.metadata) : a = b := by
  cases a
  cases b
  simp_all

theorem update_or_create_id_none (et : String) (d : Payload)
    (prev : Option PrevAttributes) (now : String) (tbl : List StripeSubscription)
    (h : d.id = none) :
    update_or_create_subscription et d prev now tbl = .error .missingIdentifier := by
  unfold update_or_create_subscription
  rw [h]
  rfl

theorem lookup_register_same (reg : Registry) (t : String) (h : Handler) :
    lookup_handlers (register reg t h) t = lookup_handlers reg t ++ [h] := by
  by_cases hany : (reg.any (fun p => p.1 == t)) = true
  · have hreg : register reg t h
        = reg.map (fun p => if p.1 == t then (p.1, p.2 ++ [h]) else p) := by
      unfold register
      rw [if_pos hany]
    rw [hreg]
    unfold lookup_handlers
    rw [List.find?_map]
    have hcomp : ((fun p : String × List Handler => p.1 == t) ∘
        (fun p => if p.1 == t then (p.1, p.2 ++ [h]) else p))
        = (fun p : String × List Handler => p.1 == t) := by
      funext p
      by_cases hp : p.1 = t <;> simp [hp]
    rw [hcomp]
    obtain ⟨x, hx, px⟩ := List.any_eq_true.mp hany
    cases hfind : reg.find? (fun p => p.1 == t) with
    | none =>
      rw [List.find?_eq_none] at hfind
      exact absurd px (hfind x hx)
    | some q =>
      have hq0 := List.find?_some hfind
      have hq : q.1 = t := by simpa using hq0
      simp [hq]
  · have hreg : register reg t h = reg ++ [(t, [h])] := by
      unfold register
      rw [if_neg hany]
    rw [hreg]
    unfold lookup_handlers
    rw [List.find?_append]
    have hnone : reg.find? (fun p : String × List Handler => p.1 == t) = none := by
      rw [List.find?_eq_none]
      intro x hx hpx
      exact hany (List.any_eq_true.mpr ⟨x, hx, hpx⟩)
    rw [hnone]
    simp

theorem checkout_prefix_ne_renewal_key (x : String) :
    ¬("checkout.session.completed" ++ "." ++ x
      = "litestripe.stripesubscription.last_renewed") := by
  intro h
  have h1 := congrArg String.data h
  rw [String.data_append, String.data_append] at h1
  have h2 := congrArg (List.take 27) h1
  rw [List.append_assoc] at h2
  rw [show (27 : Nat) = ("checkout.session.completed".data
    ++ ".".data).length from by decide] at h2
  rw [← List.append_assoc, List.take_left] at h2
  revert h2
  decide

/-! Projection lemmas for the composed merge. -/

theorem merged_stripe_customer_id (et : String) (d : Payload)
    (prev : Option PrevAttributes) (now : String) (r : StripeSubscription) :
    (merged_record et d prev now r).stripe_customer_id =
      (match d.customer with
       | some c => if c = "" then r.stripe_customer_id else c
       | none => r.stripe_customer_id) := by
  simp [merged_record]

theorem merged_client_reference_id (et : String) (d : Payload)
    (prev : Option PrevAttributes) (now : String) (r : StripeSubscription) :
    (merged_record et d prev now r).client_reference_id = r.client_reference_id := by
  simp [merged_record]

theorem merged_stripe_subscription_id (et : String) (d : Payload)
    (prev : Option PrevAttributes) (now : String) (r : StripeSubscription) :
    (merged_record et d prev now r).stripe_subscription_id
      = r.stripe_subscription_id := by
  simp [merged_record]

theorem merged_created (et : String) (d : Payload) (prev : Option PrevAttributes)
    (now : String) (r : StripeSubscription) :
    (merged_record et d prev now r).created =
      (match d.created with
       | some t => convert_to_datetime (some t)
       | none => r.created) := by
  simp [merged_record]

theorem merged_start_date (et : String) (d : Payload) (prev : Option PrevAttributes)
    (now : String) (r : StripeSubscription) :
    (merged_record et d prev now r).start_date =
      (match d.start_date with
       | some t => convert_to_datetime (some t)
       | none => r.start_date) := by
  simp [merged_record]

theorem merged_cancel_at (et : String) (d : Payload) (prev : Option PrevAttributes)
    (now : String) (r : StripeSubscription) :
    (merged_record et d prev now r).cancel_at =
      (if d.cancel_at.isSome || check_subscription_renewal r prev then
        (if check_subscription_renewal r prev then none
         else convert_to_datetime d.cancel_at)
       else r.cancel_at) := by
  by_cases hc : check_subscription_renewal r prev = true
  · simp [merged_record, hc]
  · have hc2 : check_subscription_renewal r prev = false := by
      simpa using hc
    simp [merged_record, hc2]

theorem merged_cancelled_at (et : String) (d : Payload) (prev : Option PrevAttributes)
    (now : String) (r : StripeSubscription) :
    (merged_record et d prev now r).cancelled_at =
      (if d.canceled_at.isSome || check_subscription_renewal r prev then
        (if check_subscription_renewal r prev then none
         else convert_to_datetime d.canceled_at)
       else r.cancelled_at) := by
  by_cases hc : check_subscription_renewal r prev = true
  · simp [merged_record, hc]
  · have hc2 : check_subscription_renewal r prev = false := by
      simpa using hc
    simp [merged_record, hc2]

theorem merged_cancel_at_period_end (et : String) (d : Payload)
    (prev : Option PrevAttributes) (now : String) (r : StripeSubscription) :
    (merged_record et d prev now r).cancel_at_period_end =
      (match d.cancel_at_period_end with
       | some b => some b
       | none => r.cancel_at_period_end) := by
  simp [merged_record]

theorem merged_status (et : String) (d : Payload) (prev : Option PrevAttributes)
    (now : String) (r : StripeSubscription) :
    (merged_record et d prev now r).status =
      (match d.status with
       | some st => if st = "" then r.status else st
       | none => r.status) := by
  simp [merged_record]

theorem merged_metadata (et : String) (d : Payload) (prev : Option PrevAttributes)
    (now : String) (r : StripeSubscription) :
    (merged_record et d prev now r).metadata =
      (if check_subscription_renewal r prev then
        set_metadata (meta_fold et d.metadata r.metadata)
          "litestripe.stripesubscription.last_renewed" now
       else meta_fold et d.metadata r.metadata) := by
  by_cases hc : check_subscription_renewal r prev = true
  · simp [merged_record, hc]
  · have hc2 : check_subscription_renewal r prev = false := by
      simpa using hc
    simp [merged_record, hc2]

theorem merged_record_idem (et : String) (d : Payload) (prev : Option PrevAttributes)
    (now1 now2 : String) (r0 : StripeSubscription)
    (hnd : (d.metadata.map (fun kv => et ++ "." ++ kv.1)).Nodup)
    (hndr0 : (r0.metadata.map Prod.fst).Nodup)
    (hc0 : check_subscription_renewal r0 prev = false)
    (hc1 : check_subscription_renewal (merged_record et d prev now1 r0) prev = false) :
    merged_record et d prev now2 (merged_record et d prev now1 r0)
      = merged_record et d prev now1 r0 := by
  apply subscription_ext
  case h1 =>
    rw [merged_stripe_customer_id, merged_stripe_customer_id]
    cases hcu : d.customer with
    | none => rfl
    | some c => by_cases hce : c = "" <;> simp [hce]
  case h2 => rw [merged_client_reference_id]
  case h3 => rw [merged_stripe_subscription_id]
  case h4 =>
    rw [merged_created, merged_created]
    cases d.created <;> simp
  case h5 =>
    rw [merged_start_date, merged_start_date]
    cases d.start_date <;> simp
  case h6 =>
    rw [merged_cancel_at, merged_cancel_at, hc0, hc1]
    cases d.cancel_at <;> simp
  case h7 =>
    rw [merged_cancelled_at, merged_cancelled_at, hc0, hc1]
    cases d.canceled_at <;> simp
  case h8 =>
    rw [merged_cancel_at_period_end, merged_cancel_at_period_end]
    cases d.cancel_at_period_end <;> simp
  case h9 =>
    rw [merged_status, merged_status]
    cases hst : d.status with
    | none => rfl
    | some st => by_cases hse : st = "" <;> simp [hse]
  case h10 =>
    rw [merged_metadata, merged_metadata, hc0, hc1]
    simp only [Bool.false_eq_true, if_false]
    exact meta_fold_fixed et d.metadata (meta_fold et d.metadata r0.metadata)
      (meta_fold_keys_nodup et d.metadata r0.metadata hndr0)
      (fun kv hkv => get_meta_fold_written et d.metadata hnd r0.metadata kv hkv)

/-! Claim theorems. -/

/-- C1 (code evaluated at the failing input): the claim states that a
checkout.session.completed event lacking a subscription identifier creates
exactly one OrphanedPayment through the Orphan Recorder with reason
"missing subscription id"; the source instead only logs a warning and returns
(handlers.py 145-147) — orphaned_payment_handler is never invoked anywhere.
This theorem shows the handler returns the database unchanged at such an
event: zero OrphanedPayment rows are created (contradicting the claim's
"exactly one") and zero SubscriptionRecord mutations occur. -/
theorem c1_checkout_missing_subscription_no_orphan (session : Session) (db : DB)
    (h : truthy session.subscription = false) :
    handle_checkout_session_completed session db = .ok db := by
  unfold handle_checkout_session_completed
  rw [if_pos h]

/-- Witness for c1_checkout_missing_subscription_no_orphan at the concrete
event with no subscription field and an empty database. -/
theorem c1_checkout_missing_subscription_no_orphan_witness :
    truthy (({} : Session).subscription) = false ∧
    handle_checkout_session_completed {} {} = .ok ({} : DB) :=
  ⟨rfl, c1_checkout_missing_subscription_no_orphan {} {} rfl⟩

/-- C2: for a stored record whose cancel_at equals T and an update event whose
previous_attributes carry a cancel_at normalizing to T, reconciliation detects
the renewal: the saved record has cancel_at and cancelled_at cleared — the
payload's own (possibly stale, arbitrary) cancel_at and canceled_at values are
ignored since the payload d is universally quantified — and the metadata key
litestripe.stripesubscription.last_renewed is written with the wall-clock
value. -/
theorem c2_renewal_clears_cancellation (et : String) (d : Payload) (sid : String)
    (T t : Int) (now : String) (tbl : List StripeSubscription)
    (r : StripeSubscription)
    (hid : d.id = some sid)
    (hfound : tbl.find? (fun s => s.stripe_subscription_id == sid) = some r)
    (hT : r.cancel_at = some T)
    (hconv : convert_to_datetime (some t) = some T) :
    ∃ r2, update_or_create_subscription et d (some { cancel_at := some t }) now tbl
        = .ok (r2, save r2 tbl) ∧
      r2.cancel_at = none ∧ r2.cancelled_at = none ∧
      get_metadata_key r2.metadata "litestripe.stripesubscription.last_renewed"
        = some now := by
  have hg : get_or_create d.id tbl = .ok (r, false) := by
    rw [hid, get_or_create_some, hfound]
  have ht0 : ¬(t = 0) := by
    intro h0
    rw [h0] at hconv
    simp [convert_to_datetime] at hconv
  have hcheck : check_subscription_renewal r (some { cancel_at := some t })
      = true := by
    simp [check_subscription_renewal, ht0, hconv, hT]
  refine ⟨merged_record et d (some { cancel_at := some t }) now r,
    update_or_create_eq et d _ now tbl r false hg, ?_, ?_, ?_⟩
  · rw [merged_cancel_at, hcheck]
    simp
  · rw [merged_cancelled_at, hcheck]
    simp
  · rw [merged_metadata, hcheck]
    simp [get_metadata_key_set_same]

/-- Witness for c2_renewal_clears_cancellation: stored cancel_at 1700000000,
previous_attributes.cancel_at 1700000000, payload carrying a different stale
cancel_at 1800000000. -/
theorem c2_renewal_clears_cancellation_witness :
    c2w_payload.id = some "sub_1" ∧
    c2w_tbl.find? (fun s => s.stripe_subscription_id == "sub_1")
      = some c2w_record ∧
    c2w_record.cancel_at = some 1700000000 ∧
    convert_to_datetime (some 1700000000) = some 1700000000 ∧
    (∃ r2, update_or_create_subscription "customer.subscription.updated"
        c2w_payload (some { cancel_at := some 1700000000 }) "now" c2w_tbl
        = .ok (r2, save r2 c2w_tbl) ∧
      r2.cancel_at = none ∧ r2.cancelled_at = none ∧
      get_metadata_key r2.metadata "litestripe.stripesubscription.last_renewed"
        = some "now") :=
  ⟨rfl, rfl, rfl, rfl,
    c2_renewal_clears_cancellation "customer.subscription.updated" c2w_payload
      "sub_1" 1700000000 1700000000 "now" c2w_tbl c2w_record rfl rfl rfl rfl⟩

/-- C5: a payload lacking the id key makes reconciliation fail with
MissingIdentifier (modelled from the spec as the store's rejection of the
absent key on the non-nullable id column) and no table state is produced, so
no SubscriptionRecord is created or updated. -/
theorem c5_missing_id_rejected (et : String) (d : Payload)
    (prev : Option PrevAttributes) (now : String) (tbl : List StripeSubscription)
    (h : d.id = none) :
    update_or_create_subscription et d prev now tbl
      = .error .missingIdentifier :=
  update_or_create_id_none et d prev now tbl h

/-- Witness for c5_missing_id_rejected at the empty payload. -/
theorem c5_missing_id_rejected_witness :
    ({} : Payload).id = none ∧
    update_or_create_subscription "customer.subscription.updated" {} none "ts" []
      = .error .missingIdentifier :=
  ⟨rfl, c5_missing_id_rejected "customer.subscription.updated" {} none "ts" [] rfl⟩

/-- C10: a payload whose customer or status key is present but equal to the
empty string is treated as absent by the truthiness presence tests of
handlers.py 58 and 72: the stored value is retained, not overwritten. -/
theorem c10_empty_string_treated_absent (et : String) (d : Payload)
    (prev : Option PrevAttributes) (now : String) (tbl : List StripeSubscription)
    (r : StripeSubscription) (b : Bool)
    (hg : get_or_create d.id tbl = .ok (r, b)) :
    ∃ r2, update_or_create_subscription et d prev now tbl = .ok (r2, save r2 tbl) ∧
      (d.customer = some "" → r2.stripe_customer_id = r.stripe_customer_id) ∧
      (d.status = some "" → r2.status = r.status) := by
  refine ⟨merged_record et d prev now r,
    update_or_create_eq et d prev now tbl r b hg, ?_, ?_⟩
  · intro hc
    rw [merged_stripe_customer_id, hc]
    simp
  · intro hs
    rw [merged_status, hs]
    simp

/-- Witness for c10_empty_string_treated_absent: stored customer cus_0 and
status trialing survive a payload carrying empty strings for both. -/
theorem c10_empty_string_treated_absent_witness :
    get_or_create c10w_payload.id c10w_tbl = .ok (c10w_record, false) ∧
    (∃ r2, update_or_create_subscription "customer.subscription.updated"
        c10w_payload none "ts" c10w_tbl = .ok (r2, save r2 c10w_tbl) ∧
      (c10w_payload.customer = some "" →
        r2.stripe_customer_id = c10w_record.stripe_customer_id) ∧
      (c10w_payload.status = some "" → r2.status = c10w_record.status)) :=
  ⟨rfl, c10_empty_string_treated_absent "customer.subscription.updated"
    c10w_payload none "ts" c10w_tbl c10w_record false rfl⟩

/-- C4 counterexample: the claim says every field present in the payload
overwrites the stored value.  At the concrete payload carrying
customer = "" (present) against a record storing cus_old, the code retains
cus_old because the presence test at handlers.py 58 is a truthiness test. -/
theorem c4_field_overwrite_counterexample :
    c4_payload.customer = some "" ∧
    update_or_create_subscription "customer.subscription.updated" c4_payload
      none "ts" c4_tbl = .ok (c4_result, c4_tbl) ∧
    c4_result.stripe_customer_id = "cus_old" ∧
    ¬(c4_result.stripe_customer_id = "") :=
  ⟨rfl, rfl, rfl, by decide⟩

/-- C4 amended: in a reconciliation call where renewal detection does not
fire, every is-not-None-tested field (created, start_date, cancel_at,
canceled_at, cancel_at_period_end) present in the payload overwrites the
stored value after type conversion and is retained when absent, while the
truthiness-tested fields (customer, status) overwrite only when present and
non-empty and are retained when absent. -/
theorem c4_field_merge_policy (et : String) (d : Payload)
    (prev : Option PrevAttributes) (now : String) (tbl : List StripeSubscription)
    (r : StripeSubscription) (b : Bool)
    (hg : get_or_create d.id tbl = .ok (r, b))
    (hc : check_subscription_renewal r prev = false) :
    ∃ r2, update_or_create_subscription et d prev now tbl = .ok (r2, save r2 tbl) ∧
      (∀ c, d.customer = some c → ¬(c = "") → r2.stripe_customer_id = c) ∧
      (d.customer = none → r2.stripe_customer_id = r.stripe_customer_id) ∧
      (∀ t, d.created = some t → r2.created = convert_to_datetime (some t)) ∧
      (d.created = none → r2.created = r.created) ∧
      (∀ t, d.start_date = some t → r2.start_date = convert_to_datetime (some t)) ∧
      (d.start_date = none → r2.start_date = r.start_date) ∧
      (∀ t, d.cancel_at = some t → r2.cancel_at = convert_to_datetime (some t)) ∧
      (d.cancel_at = none → r2.cancel_at = r.cancel_at) ∧
      (∀ t, d.canceled_at = some t → r2.cancelled_at = convert_to_datetime (some t)) ∧
      (d.canceled_at = none → r2.cancelled_at = r.cancelled_at) ∧
      (∀ bb, d.cancel_at_period_end = some bb → r2.cancel_at_period_end = some bb) ∧
      (d.cancel_at_period_end = none →
        r2.cancel_at_period_end = r.cancel_at_period_end) ∧
      (∀ st, d.status = some st → ¬(st = "") → r2.status = st) ∧
      (d.status = none → r2.status = r.status) := by
  refine ⟨merged_record et d prev now r,
    update_or_create_eq et d prev now tbl r b hg, ?_, ?_, ?_, ?_, ?_, ?_, ?_, ?_,
    ?_, ?_, ?_, ?_, ?_, ?_⟩
  · intro c h1 h2
    rw [merged_stripe_customer_id, h1]
    simp [h2]
  · intro h1
    rw [merged_stripe_customer_id, h1]
  · intro t h1
    rw [merged_created, h1]
  · intro h1
    rw [merged_created, h1]
  · intro t h1
    rw [merged_start_date, h1]
  · intro h1
    rw [merged_start_date, h1]
  · intro t h1
    rw [merged_cancel_at, hc, h1]
    simp
  · intro h1
    rw [merged_cancel_at, hc, h1]
    simp
  · intro t h1
    rw [merged_cancelled_at, hc, h1]
    simp
  · intro h1
    rw [merged_cancelled_at, hc, h1]
    simp
  · intro bb h1
    rw [merged_cancel_at_period_end, h1]
  · intro h1
    rw [merged_cancel_at_period_end, h1]
  · intro st h1 h2
    rw [merged_status, h1]
    simp [h2]
  · intro h1
    rw [merged_status, h1]

/-- Witness for c4_field_merge_policy: a payload carrying every field applied
to a fresh record on an empty table, with no previous_attributes. -/
theorem c4_field_merge_policy_witness :
    get_or_create c4w_payload.id [] = .ok (c4w_record, true) ∧
    check_subscription_renewal c4w_record none = false ∧
    (∃ r2, update_or_create_subscription "customer.subscription.updated"
        c4w_payload none "ts" [] = .ok (r2, save r2 []) ∧
      (∀ c, c4w_payload.customer = some c → ¬(c = "") →
        r2.stripe_customer_id = c) ∧
      (c4w_payload.customer = none →
        r2.stripe_customer_id = c4w_record.stripe_customer_id) ∧
      (∀ t, c4w_payload.created = some t →
        r2.created = convert_to_datetime (some t)) ∧
      (c4w_payload.created = none → r2.created = c4w_record.created) ∧
      (∀ t, c4w_payload.start_date = some t →
        r2.start_date = convert_to_datetime (some t)) ∧
      (c4w_payload.start_date = none → r2.start_date = c4w_record.start_date) ∧
      (∀ t, c4w_payload.cancel_at = some t →
        r2.cancel_at = convert_to_datetime (some t)) ∧
      (c4w_payload.cancel_at = none → r2.cancel_at = c4w_record.cancel_at) ∧
      (∀ t, c4w_payload.canceled_at = some t →
        r2.cancelled_at = convert_to_datetime (some t)) ∧
      (c4w_payload.canceled_at = none →
        r2.cancelled_at = c4w_record.cancelled_at) ∧
      (∀ bb, c4w_payload.cancel_at_period_end = some bb →
        r2.cancel_at_period_end = some bb) ∧
      (c4w_payload.cancel_at_period_end = none →
        r2.cancel_at_period_end = c4w_record.cancel_at_period_end) ∧
      (∀ st, c4w_payload.status = some st → ¬(st = "") → r2.status = st) ∧
      (c4w_payload.status = none → r2.status = c4w_record.status)) :=
  ⟨rfl, rfl, c4_field_merge_policy "customer.subscription.updated" c4w_payload
    none "ts" [] c4w_record true rfl rfl⟩

/-- C6 counterexample: the claim says a timestamp field sent as 0 is converted
and stored as the Unix-epoch point in time.  At the concrete payload carrying
cancel_at = 0 against a record storing 1700000000, the code instead stores
null: convert_to_datetime treats 0 as falsy (handlers.py 15) and the
is-not-None test at line 64 still fires the overwrite. -/
theorem c6_zero_timestamp_counterexample :
    c6_payload.cancel_at = some 0 ∧
    update_or_create_subscription "customer.subscription.updated" c6_payload
      none "ts" c6_tbl = .ok (c6_result, [c6_result]) ∧
    c6_result.cancel_at = none ∧
    convert_to_datetime (some 0) = none :=
  ⟨rfl, rfl, rfl, rfl⟩

/-- C6 amended: a timestamp field sent as 0 is distinguished from an absent
field, but not by storing the epoch instant: a present 0 triggers the
overwrite and stores null (clearing any previous value), while an absent
field retains the stored value (shown here for renewal-free calls). -/
theorem c6_zero_timestamp_clears (et : String) (d : Payload)
    (prev : Option PrevAttributes) (now : String) (tbl : List StripeSubscription)
    (r : StripeSubscription) (b : Bool)
    (hg : get_or_create d.id tbl = .ok (r, b))
    (hc : check_subscription_renewal r prev = false) :
    ∃ r2, update_or_create_subscription et d prev now tbl = .ok (r2, save r2 tbl) ∧
      (d.cancel_at = some 0 → r2.cancel_at = none) ∧
      (d.cancel_at = none → r2.cancel_at = r.cancel_at) ∧
      (d.canceled_at = some 0 → r2.cancelled_at = none) ∧
      (d.canceled_at = none → r2.cancelled_at = r.cancelled_at) ∧
      (d.start_date = some 0 → r2.start_date = none) ∧
      (d.created = some 0 → r2.created = none) := by
  refine ⟨merged_record et d prev now r,
    update_or_create_eq et d prev now tbl r b hg, ?_, ?_, ?_, ?_, ?_, ?_⟩
  · intro h1
    rw [merged_cancel_at, hc, h1]
    simp [convert_to_datetime]
  · intro h1
    rw [merged_cancel_at, hc, h1]
    simp
  · intro h1
    rw [merged_cancelled_at, hc, h1]
    simp [convert_to_datetime]
  · intro h1
    rw [merged_cancelled_at, hc, h1]
    simp
  · intro h1
    rw [merged_start_date, h1]
    simp [convert_to_datetime]
  · intro h1
    rw [merged_created, h1]
    simp [convert_to_datetime]

/-- Witness for c6_zero_timestamp_clears: a payload carrying 0 for every
timestamp field applied to a fresh record. -/
theorem c6_zero_timestamp_clears_witness :
    get_or_create c6w_payload.id [] = .ok (c6w_record, true) ∧
    check_subscription_renewal c6w_record none = false ∧
    (∃ r2, update_or_create_subscription "customer.subscription.updated"
        c6w_payload none "ts" [] = .ok (r2, save r2 []) ∧
      (c6w_payload.cancel_at = some 0 → r2.cancel_at = none) ∧
      (c6w_payload.cancel_at = none → r2.cancel_at = c6w_record.cancel_at) ∧
      (c6w_payload.canceled_at = some 0 → r2.cancelled_at = none) ∧
      (c6w_payload.canceled_at = none →
        r2.cancelled_at = c6w_record.cancelled_at) ∧
      (c6w_payload.start_date = some 0 → r2.start_date = none) ∧
      (c6w_payload.created = some 0 → r2.created = none)) :=
  ⟨rfl, rfl, c6_zero_timestamp_clears "customer.subscription.updated"
    c6w_payload none "ts" [] c6w_record true rfl rfl⟩

/-- C3 counterexample: the claim states reconcile applied twice equals
applied once (audit timestamp aside) for every event.  At the concrete event
whose payload cancel_at equals previous_attributes.cancel_at, the first
application stores cancel_at; the second application then detects a renewal
against the value the first application just stored and clears it, so the
records differ. -/
theorem c3_idempotence_counterexample :
    update_or_create_subscription "customer.subscription.updated" c3_payload
      c3_prev "ts" [] = .ok (c3_once_record, [c3_once_record]) ∧
    update_or_create_subscription "customer.subscription.updated" c3_payload
      c3_prev "ts" [c3_once_record] = .ok (c3_twice_record, [c3_twice_record]) ∧
    ¬(c3_twice_record = c3_once_record) ∧
    c3_once_record.cancel_at = some 1700000000 ∧
    c3_twice_record.cancel_at = none :=
  ⟨rfl, rfl, by decide, rfl, rfl⟩

/-- C3 amended: redelivering an identical event converges (the second
application returns the same record and table) provided the event's
previous_attributes carry no truthy cancel_at, so renewal detection cannot
fire.  The Nodup hypotheses state that the payload metadata and the stored
records' metadata are genuine dictionaries (no duplicate keys), which holds
for every state reachable from JSON dicts. -/
theorem c3_reconcile_idempotent_no_prev_cancel (et : String) (d : Payload)
    (prev : Option PrevAttributes) (now1 now2 : String)
    (tbl tbl1 : List StripeSubscription) (r1 : StripeSubscription)
    (hprev : prev_cancel_truthy prev = false)
    (hnd : (d.metadata.map (fun kv => et ++ "." ++ kv.1)).Nodup)
    (htbl : ∀ x ∈ tbl, (x.metadata.map Prod.fst).Nodup)
    (h1 : update_or_create_subscription et d prev now1 tbl = .ok (r1, tbl1)) :
    update_or_create_subscription et d prev now2 tbl1 = .ok (r1, tbl1) := by
  cases hid : d.id with
  | none =>
    rw [update_or_create_id_none et d prev now1 tbl hid] at h1
    simp at h1
  | some sid =>
    have hex : ∃ r0 b, get_or_create d.id tbl = .ok (r0, b) := by
      rw [hid, get_or_create_some]
      cases hf : tbl.find? (fun s => s.stripe_subscription_id == sid) with
      | some q => exact ⟨q, false, rfl⟩
      | none => exact ⟨{ stripe_subscription_id := sid }, true, rfl⟩
    obtain ⟨r0, b, hg⟩ := hex
    have heq1 := update_or_create_eq et d prev now1 tbl r0 b hg
    rw [heq1] at h1
    simp only [Except.ok.injEq, Prod.mk.injEq] at h1
    obtain ⟨hr1, htbl1⟩ := h1
    have hg2 : get_or_create (some sid) tbl = .ok (r0, b) := by
      rw [← hid]
      exact hg
    have hc0 : check_subscription_renewal r0 prev = false :=
      check_eq_false_of_prev prev hprev r0
    have hc1 : check_subscription_renewal (merged_record et d prev now1 r0) prev
        = false := check_eq_false_of_prev prev hprev _
    have hidr0 : r0.stripe_subscription_id = sid :=
      get_or_create_ok_id sid tbl r0 b hg2
    have hndr0 : (r0.metadata.map Prod.fst).Nodup :=
      get_or_create_ok_meta_nodup sid tbl r0 b htbl hg2
    have hidr1 : r1.stripe_subscription_id = sid := by
      rw [← hr1, merged_stripe_subscription_id]
      exact hidr0
    have hsave1 : save r1 tbl = tbl1 := by
      rw [← hr1]
      exact htbl1
    have hg3 : get_or_create d.id tbl1 = .ok (r1, false) := by
      rw [hid, ← hidr1, ← hsave1]
      exact get_or_create_save r1 tbl
    rw [update_or_create_eq et d prev now2 tbl1 r1 false hg3]
    have hmerge : merged_record et d prev now2 r1 = r1 := by
      rw [← hr1]
      exact merged_record_idem et d prev now1 now2 r0 hnd hndr0 hc0 hc1
    rw [hmerge]
    have hsave2 : save r1 tbl1 = tbl1 := by
      rw [← hsave1, save_save]
    rw [hsave2]

/-- Witness for c3_reconcile_idempotent_no_prev_cancel: an update event with
no previous_attributes redelivered onto the table its first application
produced. -/
theorem c3_reconcile_idempotent_no_prev_cancel_witness :
    prev_cancel_truthy none = false ∧
    update_or_create_subscription "customer.subscription.updated" c3w_payload
      none "t1" [] = .ok (c3w_record, [c3w_record]) ∧
    update_or_create_subscription "customer.subscription.updated" c3w_payload
      none "t2" [c3w_record] = .ok (c3w_record, [c3w_record]) :=
  ⟨rfl, rfl,
    c3_reconcile_idempotent_no_prev_cancel "customer.subscription.updated"
      c3w_payload none "t1" "t2" [] [c3w_record] c3w_record rfl (by decide)
      (by simp) rfl⟩

/-- C7: dispatch looks up the handlers registered for the event type and runs
every one of them in registration order: the report carries one outcome per
handler, computed by running that handler with failures captured, so a
failing first handler does not prevent the second from producing its outcome;
the HTTP response is 200 success unconditionally, including the empty-handler
case, which only sets the no-handlers flag. -/
theorem c7_dispatch_runs_all_and_succeeds (reg : Registry) (t : String)
    (h1 h2 : Handler) (e : WebhookEvent) (he : e.type = t) :
    (stripe_webhook (register (register reg t h1) t h2) e).status = 200 ∧
    (stripe_webhook (register (register reg t h1) t h2) e).outcomes
      = ((lookup_handlers reg t).map (fun h => run_handler h e))
        ++ [run_handler h1 e, run_handler h2 e] ∧
    (∀ reg2 : Registry, (stripe_webhook reg2 e).status = 200) ∧
    ((lookup_handlers reg e.type).isEmpty = true →
      (stripe_webhook reg e).no_handlers = true ∧
      (stripe_webhook reg e).status = 200) := by
  refine ⟨rfl, ?_, fun reg2 => rfl, fun hemp => ⟨hemp, rfl⟩⟩
  show ((lookup_handlers (register (register reg t h1) t h2) e.type).map
      (fun h => run_handler h e)) = _
  rw [he, lookup_register_same, lookup_register_same]
  simp

/-- Witness for c7_dispatch_runs_all_and_succeeds: a failing handler
registered before a succeeding one; both outcomes are reported in order and
the dispatch still returns 200. -/
theorem c7_dispatch_runs_all_and_succeeds_witness :
    (stripe_webhook (register (register ([] : Registry)
        "customer.subscription.updated" c7w_fail)
        "customer.subscription.updated" c7w_ok) c7w_event).status = 200 ∧
    (stripe_webhook (register (register ([] : Registry)
        "customer.subscription.updated" c7w_fail)
        "customer.subscription.updated" c7w_ok) c7w_event).outcomes
      = [HandlerOutcome.failure "boom", HandlerOutcome.success] := by
  have h := c7_dispatch_runs_all_and_succeeds [] "customer.subscription.updated"
    c7w_fail c7w_ok c7w_event rfl
  refine ⟨h.1, ?_⟩
  rw [h.2.1]
  rfl

/-- C8: both reconciliation paths write payload metadata only under the
event-type-namespaced key and never remove an existing metadata key (an
existing key stays present through any merge), and in the concrete scenario a
customer.subscription.updated event with plan=pro followed by a
checkout.session.completed event with plan=basic leaves both namespaced plan
keys present simultaneously. -/
theorem c8_metadata_namespaced_never_removed :
    (∀ (et : String) (d : Payload) (prev : Option PrevAttributes) (now : String)
        (r : StripeSubscription) (k : String),
      (get_metadata_key r.metadata k).isSome = true →
      (get_metadata_key (merged_record et d prev now r).metadata k).isSome
        = true) ∧
    (∀ (session : Session) (r : StripeSubscription) (k : String),
      (get_metadata_key r.metadata k).isSome = true →
      (get_metadata_key (checkout_merged session r).metadata k).isSome = true) ∧
    update_or_create_subscription "customer.subscription.updated" c8_payload
      none "t1" [] = .ok (c8_r1, [c8_r1]) ∧
    handle_checkout_session_completed c8_session
      { subs := [c8_r1], orphans := [] } = .ok { subs := [c8_r2], orphans := [] } ∧
    get_metadata_key c8_r2.metadata "customer.subscription.updated.plan"
      = some "pro" ∧
    get_metadata_key c8_r2.metadata "checkout.session.completed.plan"
      = some "basic" := by
  refine ⟨?_, ?_, rfl, rfl, rfl, rfl⟩
  · intro et d prev now r k hsome
    rw [merged_metadata]
    by_cases hc : check_subscription_renewal r prev = true
    · rw [if_pos hc]
      exact get_metadata_key_set_isSome _ _ _ _ (get_meta_fold_isSome et _ _ _ hsome)
    · rw [if_neg hc]
      exact get_meta_fold_isSome et _ _ _ hsome
  · intro session r k hsome
    have hmeta : (checkout_merged session r).metadata
        = meta_fold "checkout.session.completed" session.metadata r.metadata := by
      simp [checkout_merged]
    rw [hmeta]
    exact get_meta_fold_isSome _ _ _ _ hsome

/-- Witness for c8_metadata_namespaced_never_removed: the pro plan key written
by the first event is still present after a further merge writing other
namespaced keys. -/
theorem c8_metadata_namespaced_never_removed_witness :
    (get_metadata_key c8w_r2.metadata
      "customer.subscription.updated.plan").isSome = true := by
  have h := c8_metadata_namespaced_never_removed.1 "customer.subscription.updated"
    c8w_payload none "t" c8_r1 "customer.subscription.updated.plan" (by decide)
  have he : merged_record "customer.subscription.updated" c8w_payload none "t"
      c8_r1 = c8w_r2 := by decide
  rw [he] at h
  exact h

/-- C9: a checkout.session.completed event that carries a truthy subscription
id triggers the restricted pass: the saved record keeps status, start_date,
cancel_at, cancelled_at, cancel_at_period_end and the renewal-stamp metadata
key exactly as looked up (renewal detection never runs on this path), while
the correlation and creation fields and the namespaced metadata are the only
updates. -/
theorem c9_checkout_restricted_pass (session : Session) (db : DB) (sid : String)
    (r : StripeSubscription) (b : Bool)
    (hs : session.subscription = some sid)
    (hsid : ¬(sid = ""))
    (hg : get_or_create (some sid) db.subs = .ok (r, b)) :
    handle_checkout_session_completed session db
      = .ok { db with subs := save (checkout_merged session r) db.subs } ∧
    (checkout_merged session r).status = r.status ∧
    (checkout_merged session r).start_date = r.start_date ∧
    (checkout_merged session r).cancel_at = r.cancel_at ∧
    (checkout_merged session r).cancelled_at = r.cancelled_at ∧
    (checkout_merged session r).cancel_at_period_end = r.cancel_at_period_end ∧
    get_metadata_key (checkout_merged session r).metadata
        "litestripe.stripesubscription.last_renewed"
      = get_metadata_key r.metadata "litestripe.stripesubscription.last_renewed" ∧
    (∀ c, session.customer = some c → ¬(c = "") →
      (checkout_merged session r).stripe_customer_id = c) ∧
    (∀ c, session.client_reference_id = some c → ¬(c = "") →
      (checkout_merged session r).client_reference_id = c) ∧
    (∀ t, session.created = some t → ¬(t = 0) →
      (checkout_merged session r).created = convert_to_datetime (some t)) := by
  have htr : truthy session.subscription = true := by
    rw [hs]
    simp [truthy, hsid]
  refine ⟨handle_checkout_eq session db r b htr (by rw [hs]; exact hg),
    ?_, ?_, ?_, ?_, ?_, ?_, ?_, ?_, ?_⟩
  · simp [checkout_merged]
  · simp [checkout_merged]
  · simp [checkout_merged]
  · simp [checkout_merged]
  · simp [checkout_merged]
  · have hmeta : (checkout_merged session r).metadata
        = meta_fold "checkout.session.completed" session.metadata r.metadata := by
      simp [checkout_merged]
    rw [hmeta]
    exact get_meta_fold_of_not_written _ _ _ _
      (fun kv _ => checkout_prefix_ne_renewal_key kv.1)
  · intro c hcu hce
    simp [checkout_merged, hcu, hce]
  · intro c hcu hce
    simp [checkout_merged, hcu, hce]
  · intro t hct hce
    simp [checkout_merged, hct, hce]

/-- Witness for c9_checkout_restricted_pass: a full checkout session applied
to a record carrying lifecycle state; the lifecycle fields survive. -/
theorem c9_checkout_restricted_pass_witness :
    handle_checkout_session_completed c9w_session c9w_db
      = .ok { c9w_db with
          subs := save (checkout_merged c9w_session c9w_record) c9w_db.subs } ∧
    (checkout_merged c9w_session c9w_record).status = c9w_record.status ∧
    (checkout_merged c9w_session c9w_record).cancel_at = c9w_record.cancel_at := by
  have h := c9_checkout_restricted_pass c9w_session c9w_db "sub_1" c9w_record
    false rfl (by decide) rfl
  exact ⟨h.1, h.2.1, h.2.2.2.1⟩

end Litestripe
